import Mathlib

/-!
Verification of the porous-absorber computational core (src/porous/funcs.py)
against its natural-language specification.

Arrays are modelled as lists over the exact real and complex numbers; the
elementwise numpy operations become List.map, and binary operations between
two arrays go through `bop`, which reproduces the 1-D numpy broadcasting
rule (equal lengths are combined pointwise, a length-one operand is
broadcast, anything else raises, modelled as `none`).  Float exponentiation
with a real literal exponent is Real rpow, complex `** 0.5` and `np.sqrt`
on complex values are the principal complex power `csqrt`.
-/

set_option maxRecDepth 20000

namespace Porous

/-- numpy 1-D broadcasting for a binary elementwise operation: equal shapes
combine pointwise, a one-element operand broadcasts, any other shape pair is
an error (`none`). -/
def bop {α : Type} [Inhabited α] (op : α → α → α) (xs ys : List α) : Option (List α) :=
  if xs.length = ys.length then some (List.zipWith op xs ys)
  else if xs.length = 1 then some (ys.map (fun y => op xs.headI y))
  else if ys.length = 1 then some (xs.map (fun x => op x ys.headI))
  else none

/-- Principal complex square root, the embedding of numpy `** 0.5` and
`np.sqrt` on complex arguments: the principal power with exponent 1/2. -/
noncomputable def csqrt (w : ℂ) : ℂ := w ^ ((1 : ℂ) / 2)

/-- funcs.py line 3: `freq = np.arange(50, 10e3, 10)` (995 entries, 50 .. 9990). -/
noncomputable def freq : List ℝ := (List.range 995).map (fun (n : ℕ) => 50 + 10 * (n : ℝ))

/-- funcs.py line 4: `omega = 2 * np.pi * freq`. -/
noncomputable def omega : List ℝ := freq.map (fun fi => 2 * Real.pi * fi)

/-- funcs.py line 5. -/
noncomputable def c0 : ℝ := 343.0

/-- funcs.py line 6: the hard-coded module constant. -/
noncomputable def rho0 : ℝ := 1.213

/-- funcs.py line 7: `z0 = rho0 * c0`. -/
noncomputable def z0 : ℝ := rho0 * c0

/-- funcs.py line 8: `k0 = omega / c0`. -/
noncomputable def k0 : List ℝ := omega.map (fun w => w / c0)

/-- The module-level read-only globals of funcs.py (lines 3-8), threaded
explicitly through the functions that read them. -/
structure Env where
  freq : List ℝ
  omega : List ℝ
  c0 : ℝ
  rho0 : ℝ
  z0 : ℝ
  k0 : List ℝ

/-- The global environment the module builds at import time. -/
noncomputable def initEnv : Env := ⟨freq, omega, c0, rho0, z0, k0⟩

/-- funcs.py lines 11-15, `alpha_from_dkz(d, k, z)`:
`zs = -1j * z / np.tan(k * d)`, `R = (zs - z0) / (zs + z0)`,
`alpha = 1 - np.abs(R) ** 2`. -/
noncomputable def alpha_from_dkz (e : Env) (d : ℝ) (k z : List ℂ) : Option (List ℝ) :=
  (bop (fun a b => a / b) (z.map (fun zi => -Complex.I * zi))
      ((k.map (fun ki => ki * (d : ℂ))).map Complex.tan)).map
    (fun zs =>
      (zs.map (fun s => (s - (e.z0 : ℂ)) / (s + (e.z0 : ℂ)))).map
        (fun r => 1 - Complex.abs r ^ 2))

/-- funcs.py lines 18-61, the `Fluid` value: every field set by `__init__`. -/
structure Fluid where
  TK : ℝ
  rho : ℝ
  Eta : ℝ
  Cp : ℝ
  kappa : ℝ
  co : ℝ
  c : ℝ
  speedOfSound : ℝ
  density : ℝ
  adia : ℝ
  gamma : ℝ
  P0 : ℝ
  Pr : ℝ

/-- funcs.py lines 40-61, the body of `Fluid.__init__` (arguments positional,
in source order T0, P0, R, adia, Tref, C, Eta0). -/
noncomputable def mkFluid (T0 P0 R adia Tref C Eta0 : ℝ) : Fluid :=
  let TK : ℝ := T0 + 273.15
  let rho : ℝ := P0 / (R * TK)
  let Eta : ℝ := Eta0 * ((Tref + C) / (TK + C)) * (TK / Tref) ^ ((3 : ℝ) / 2)
  let Cp : ℝ := 1e3 * (1.0062 + 3.6028e-5 * T0 - 1.0855e-6 * T0 ^ 2 + 1.3791e-8 * T0 ^ 3)
  let kappa : ℝ := 1.5207e-11 * TK ^ 3 - 4.8574e-8 * TK ^ 2 + 1.0184e-4 * TK - 3.9333e-4
  let co : ℝ := Real.sqrt (adia * (R * TK))
  ⟨TK, rho, Eta, Cp, kappa, co, co, co, rho, adia, adia, P0, Cp * Eta / kappa⟩

/-- `Fluid()` with the documented defaults (funcs.py lines 21-27). -/
noncomputable def defaultFluid : Fluid :=
  mkFluid 20.0 101325.0 287.05 1.4 291.15 120.0 18.07e-6

/-- funcs.py lines 64-106, `rho_c_JCA` at a single frequency entry: the
vectorized numpy body is elementwise in `freq`, with `f = Fluid(*args, **kw)`
passed here as `fl`.  Real float powers (`** 2.0`) are rpow; the complex
`** 0.5` and `np.sqrt` are `csqrt`. -/
noncomputable def rho_c_JCA_at (fl : Fluid) (phi sigma alpha v_length t_length fq : ℝ) :
    ℂ × ℂ :=
  let omega : ℝ := 2 * Real.pi * fq
  let Pr : ℝ := fl.Cp * fl.Eta / fl.kappa
  let G_J : ℂ :=
    csqrt (1 + 4 * Complex.I * (↑(alpha ^ (2 : ℝ)) : ℂ) * ↑fl.Eta * ↑fl.rho * ↑omega
      / (↑(sigma ^ (2 : ℝ) * v_length ^ (2 : ℝ) * phi ^ (2 : ℝ)) : ℂ))
  let rho : ℂ :=
    (↑(alpha * fl.rho / phi) : ℂ) *
      (1 + (↑(sigma * phi) : ℂ) / (Complex.I * ↑fl.rho * ↑omega * ↑alpha) * G_J)
  let K : ℂ :=
    (↑(fl.gamma * fl.P0 / phi) : ℂ) /
      ((↑fl.gamma : ℂ) - (↑(fl.gamma - 1) : ℂ) *
        (1 + (↑(8 * fl.Eta) : ℂ) /
            (Complex.I * ↑(t_length ^ (2 : ℝ)) * ↑(Pr ^ (2 : ℝ)) * ↑omega * ↑fl.rho) *
          csqrt (1 + Complex.I * ↑fl.rho * (↑(omega * Pr ^ (2 : ℝ) * t_length ^ (2 : ℝ)) : ℂ)
            / (↑(16 * fl.Eta) : ℂ)))⁻¹)
  let c : ℂ := csqrt (K / rho)
  (rho, c)

/-- funcs.py lines 64-106, the vectorized `rho_c_JCA` over a frequency array. -/
noncomputable def rho_c_JCA (freqs : List ℝ) (phi sigma alpha v_length t_length : ℝ)
    (fl : Fluid) : List ℂ × List ℂ :=
  (freqs.map (fun fq => (rho_c_JCA_at fl phi sigma alpha v_length t_length fq).1),
   freqs.map (fun fq => (rho_c_JCA_at fl phi sigma alpha v_length t_length fq).2))

/-- funcs.py lines 123-127: the elementwise body of the `z` assignment in
`DBM`, at one input frequency `fi`, with `z0v` the module constant `z0`. -/
noncomputable def miki_z_code (z0v sigma fi : ℝ) : ℂ :=
  (z0v : ℂ) * (1 + 5.5 * (↑((1e3 * fi / sigma) ^ (-0.632 : ℝ)) : ℂ)
    - Complex.I * 8.43 * (↑((1e3 * fi / sigma) ^ (-0.632 : ℝ)) : ℂ))

/-- funcs.py lines 128-132: the elementwise bracket multiplying `k0` in the
`k` assignment of `DBM`, at one input frequency `fi`. -/
noncomputable def miki_kfac_code (sigma fi : ℝ) : ℂ :=
  1 + 7.81 * (↑((1e3 * fi / sigma) ^ (-0.618 : ℝ)) : ℂ)
    - Complex.I * 11.41 * (↑((1e3 * fi / sigma) ^ (-0.618 : ℝ)) : ℂ)

/-- funcs.py lines 109-136, `DBM(f, d, sigma)`: the Miki/Delany-Bazley
empirical model.  `z` is elementwise in the input `f`; `k` multiplies the
module-level array `k0` (read from the environment) with the bracket built
from the input `f`, under numpy broadcasting. -/
noncomputable def DBM (e : Env) (f : List ℝ) (d sigma : ℝ) : Option (List ℝ) :=
  let z : List ℂ := f.map (fun fi => miki_z_code e.z0 sigma fi)
  (bop (fun a b => a * b) (e.k0.map (fun (x : ℝ) => (x : ℂ)))
      (f.map (fun fi => miki_kfac_code sigma fi))).bind
    (fun k => alpha_from_dkz e d k z)

/-- funcs.py lines 139-158, `JCA(f, d, phi, sigma, tort, v_length, t_length)`:
note the source passes the module-level grid `freq` (read from the
environment), not its own parameter `f`, to `rho_c_JCA`; the parameter `f`
is used only in `k = f * np.pi * 2 / c`. -/
noncomputable def JCA (e : Env) (f : List ℝ) (d phi sigma tort v_length t_length : ℝ) :
    Option (List ℝ) :=
  let rc := rho_c_JCA e.freq phi sigma tort v_length t_length defaultFluid
  (bop (fun a b => a / b) (f.map (fun fi => (↑(fi * Real.pi * 2) : ℂ))) rc.2).bind
    (fun k => (bop (fun a b => a * b) rc.1 rc.2).bind
      (fun z => alpha_from_dkz e d k z))

/-- A call to `DBM` as a state transition on the module globals: the body of
`DBM` contains no assignment to any global, so the environment after the
call is the environment before it. -/
noncomputable def DBM_call (e : Env) (f : List ℝ) (d sigma : ℝ) :
    Option (List ℝ) × Env := (DBM e f d sigma, e)

/-- A call to `JCA` as a state transition on the module globals: the body of
`JCA` contains no assignment to any global. -/
noncomputable def JCA_call (e : Env) (f : List ℝ) (d phi sigma tort v_length t_length : ℝ) :
    Option (List ℝ) × Env := (JCA e f d phi sigma tort v_length t_length, e)

/-- RigidBackedAbsorption as the specification words it (spec section 4.4),
for comparison with `alpha_from_dkz`: per-frequency
`zs = -j z / tan(k d)`, `R = (zs - z0)/(zs + z0)`, `alpha = 1 - |R|^2`,
pairing the i-th wavenumber with the i-th impedance. -/
noncomputable def specRigidBackedAbsorption (z0v d : ℝ) (k z : List ℂ) : List ℝ :=
  List.zipWith (fun ki zi =>
    1 - Complex.abs ((-Complex.I * zi / Complex.tan (ki * (d : ℂ)) - (z0v : ℂ)) /
        (-Complex.I * zi / Complex.tan (ki * (d : ℂ)) + (z0v : ℂ))) ^ 2) k z

/-- The empirical-model surface impedance as the specification words it:
`z(f) = z0 (1 + 5.5 X^-0.632 - j 8.43 X^-0.632)` with `X = 1000 f / sigma`. -/
noncomputable def specMikiZ (sigma fi : ℝ) : ℂ :=
  (z0 : ℂ) * (1 + 5.5 * (↑((1000 * fi / sigma) ^ (-0.632 : ℝ)) : ℂ)
    - Complex.I * 8.43 * (↑((1000 * fi / sigma) ^ (-0.632 : ℝ)) : ℂ))

/-- The empirical-model wavenumber bracket as the specification words it:
`1 + 7.81 X^-0.618 - j 11.41 X^-0.618` with `X = 1000 f / sigma`. -/
noncomputable def specMikiKfactor (sigma fi : ℝ) : ℂ :=
  1 + 7.81 * (↑((1000 * fi / sigma) ^ (-0.618 : ℝ)) : ℂ)
    - Complex.I * 11.41 * (↑((1000 * fi / sigma) ^ (-0.618 : ℝ)) : ℂ)

/-- The empirical-model wavenumber as claim C3 words it: the free-field
wavenumber `k0(f) = 2 pi f / c0` derived per entry from the input frequency
`fi`, times the Miki bracket. -/
noncomputable def specMikiK (sigma fi : ℝ) : ℂ :=
  (↑(2 * Real.pi * fi / c0) : ℂ) * specMikiKfactor sigma fi

/-- The empirical entry point as claim C3 describes it: both `z` and `k`
derived per entry from the input frequency array, then the rigid-backed
conversion. -/
noncomputable def DBM_claimed (f : List ℝ) (d sigma : ℝ) : List ℝ :=
  specRigidBackedAbsorption z0 d (f.map (specMikiK sigma)) (f.map (specMikiZ sigma))

/-- One entry of `alpha_from_dkz` (funcs.py lines 11-15) at a single
(k, z) pair. -/
noncomputable def alpha_entry (z0v d : ℝ) (ki zi : ℂ) : ℝ :=
  1 - Complex.abs ((-Complex.I * zi / Complex.tan (ki * (d : ℂ)) - (z0v : ℂ)) /
      (-Complex.I * zi / Complex.tan (ki * (d : ℂ)) + (z0v : ℂ))) ^ 2

/-- One entry of `DBM` on a grid-length input: the output at index i is a
function of the input frequency `fi` at index i and the default-grid
frequency `gi` at the same index (through the module constant `k0`). -/
noncomputable def DBM_entry (d sigma gi fi : ℝ) : ℝ :=
  alpha_entry z0 d ((↑(2 * Real.pi * gi / c0) : ℂ) * miki_kfac_code sigma fi)
    (miki_z_code z0 sigma fi)

/-- One entry of `JCA` on a grid-length input: the output at index i is a
function of the input frequency `fi` at index i and the default-grid
frequency `gi` at the same index (through the effective medium evaluated on
the default grid). -/
noncomputable def JCA_entry (d phi sigma tort v_length t_length gi fi : ℝ) : ℝ :=
  alpha_entry z0 d
    ((↑(fi * Real.pi * 2) : ℂ) /
      (rho_c_JCA_at defaultFluid phi sigma tort v_length t_length gi).2)
    ((rho_c_JCA_at defaultFluid phi sigma tort v_length t_length gi).1 *
      (rho_c_JCA_at defaultFluid phi sigma tort v_length t_length gi).2)

/-- The index-aligned form of the `DBM` output on a grid-length input. -/
noncomputable def DBM_aligned (f : List ℝ) (d sigma : ℝ) : List ℝ :=
  List.zipWith (DBM_entry d sigma) freq f

/-- The index-aligned form of the `JCA` output on a grid-length input. -/
noncomputable def JCA_aligned (f : List ℝ) (d phi sigma tort v_length t_length : ℝ) :
    List ℝ :=
  List.zipWith (JCA_entry d phi sigma tort v_length t_length) freq f

/-- The amended C3 shape of the `DBM` output: the specification Miki
impedance per input entry, and the specification Miki bracket times the
free-field wavenumber of the default-grid frequency at the same index. -/
noncomputable def DBM_grid_spec (f : List ℝ) (d sigma : ℝ) : List ℝ :=
  specRigidBackedAbsorption z0 d
    (List.zipWith (fun gi fi => (↑(2 * Real.pi * gi / c0) : ℂ) * specMikiKfactor sigma fi)
      freq f)
    (f.map (specMikiZ sigma))

/-- The JCA viscous correction G as the specification words it
(principal branch). -/
noncomputable def specG (fl : Fluid) (phi sigma alpha v_length w : ℝ) : ℂ :=
  csqrt (1 + 4 * Complex.I * (↑alpha : ℂ) ^ 2 * ↑fl.Eta * ↑fl.rho * ↑w /
    ((↑sigma : ℂ) ^ 2 * (↑v_length : ℂ) ^ 2 * (↑phi : ℂ) ^ 2))

/-- The JCA effective density as the specification words it. -/
noncomputable def specRhoEff (fl : Fluid) (phi sigma alpha v_length w : ℝ) : ℂ :=
  (↑alpha : ℂ) * ↑fl.rho / ↑phi *
    (1 + (↑sigma : ℂ) * ↑phi / (Complex.I * ↑fl.rho * ↑w * ↑alpha) *
      specG fl phi sigma alpha v_length w)

/-- The JCA thermal correction H as the specification words it
(principal branch). -/
noncomputable def specH (fl : Fluid) (t_length w : ℝ) : ℂ :=
  csqrt (1 + Complex.I * ↑fl.rho * ↑w * (↑fl.Pr : ℂ) ^ 2 * (↑t_length : ℂ) ^ 2 /
    (16 * ↑fl.Eta))

/-- The JCA effective bulk modulus as the specification words it. -/
noncomputable def specK (fl : Fluid) (phi t_length w : ℝ) : ℂ :=
  (↑fl.gamma : ℂ) * ↑fl.P0 / ↑phi /
    ((↑fl.gamma : ℂ) - ((↑fl.gamma : ℂ) - 1) *
      (1 + 8 * (↑fl.Eta : ℂ) /
          (Complex.I * (↑t_length : ℂ) ^ 2 * (↑fl.Pr : ℂ) ^ 2 * ↑w * ↑fl.rho) *
        specH fl t_length w)⁻¹)

/-- The JCA effective sound speed as the specification words it. -/
noncomputable def specCEff (fl : Fluid) (phi sigma alpha v_length t_length w : ℝ) : ℂ :=
  csqrt (specK fl phi t_length w / specRhoEff fl phi sigma alpha v_length w)

lemma freq_length : freq.length = 995 := by
  unfold freq
  rw [List.length_map, List.length_range]

lemma omega_length : omega.length = 995 := by
  unfold omega
  rw [List.length_map, freq_length]

lemma k0_length : k0.length = 995 := by
  unfold k0
  rw [List.length_map, omega_length]

lemma bop_same {α : Type} [Inhabited α] (op : α → α → α) (xs ys : List α)
    (h : xs.length = ys.length) : bop op xs ys = some (List.zipWith op xs ys) := by
  simp [bop, h]

lemma bop_left_one {α : Type} [Inhabited α] (op : α → α → α) (xs ys : List α)
    (hx : xs.length = 1) (hy : ys.length ≠ 1) :
    bop op xs ys = some (ys.map (fun y => op xs.headI y)) := by
  have hne : ¬ xs.length = ys.length := by rw [hx]; exact fun h => hy h.symm
  unfold bop
  rw [if_neg hne, if_pos hx]

lemma bop_right_one {α : Type} [Inhabited α] (op : α → α → α) (xs ys : List α)
    (hx : xs.length ≠ 1) (hy : ys.length = 1) :
    bop op xs ys = some (xs.map (fun x => op x ys.headI)) := by
  have hne : ¬ xs.length = ys.length := by rw [hy]; exact hx
  unfold bop
  rw [if_neg hne, if_neg hx, if_pos hy]

lemma real_rpow_two (x : ℝ) : x ^ (2 : ℝ) = x ^ 2 := by
  rw [show (2 : ℝ) = ((2 : ℕ) : ℝ) from by norm_num, Real.rpow_natCast]

lemma sci_1e3 : (1e3 : ℝ) = 1000 := by norm_num

/-- The principal complex power with exponent 1/2 has non-negative real
part: this is the branch both numpy square roots use. -/
lemma csqrt_re_nonneg (w : ℂ) : 0 ≤ (csqrt w).re := by
  unfold csqrt
  rcases eq_or_ne w 0 with h | h
  · rw [h, Complex.zero_cpow (by norm_num : ((1 : ℂ) / 2) ≠ 0)]
    simp
  · rw [Complex.cpow_def_of_ne_zero h, Complex.exp_re]
    apply mul_nonneg (Real.exp_nonneg _)
    have him : (Complex.log w * ((1 : ℂ) / 2)).im = w.arg / 2 := by
      have h2 : ((1 : ℂ) / 2) = ((1 / 2 : ℝ) : ℂ) := by norm_num
      rw [h2, Complex.mul_im]
      simp [Complex.log_im]
      ring
    rw [him]
    apply Real.cos_nonneg_of_mem_Icc
    constructor
    · have := Complex.neg_pi_lt_arg w
      linarith
    · have := Complex.arg_le_pi w
      linarith

/-- C4 counterexample: the module constant `rho0` (1.213) is not the density
computed by `Fluid` with default parameters; it misses it by more than the
0.001 tolerance the claim allows. -/
theorem C4_rho0_counterexample :
    rho0 ≠ defaultFluid.rho ∧ 0.001 < |rho0 - defaultFluid.rho| := by
  constructor
  · norm_num [rho0, defaultFluid, mkFluid]
  · have h : (0.001 : ℝ) < rho0 - defaultFluid.rho := by
      norm_num [rho0, defaultFluid, mkFluid]
    exact lt_of_lt_of_le h (le_abs_self _)

/-- C4 (amended): `rho0` is the hard-coded literal 1.213 (not derived from
the default fluid, whose density is within 0.001 of 1.2045); the constant
`c0 = 343.0` is within 0.1 percent of the default fluid adiabatic sound
speed; and `z0 = rho0 * c0`. -/
theorem C4_constants_amended :
    rho0 = 1.213 ∧ |defaultFluid.rho - 1.2045| ≤ 0.001 ∧
    |c0 - defaultFluid.co| ≤ 0.001 * 343.0 ∧ z0 = rho0 * c0 := by
  refine ⟨rfl, ?_, ?_, rfl⟩
  · rw [abs_le]
    constructor <;> norm_num [defaultFluid, mkFluid]
  · have hco : defaultFluid.co = Real.sqrt (1.4 * (287.05 * (20.0 + 273.15))) := rfl
    have hup : Real.sqrt (1.4 * (287.05 * (20.0 + 273.15))) ≤ 343.3 := by
      rw [show (343.3 : ℝ) = Real.sqrt (343.3 ^ 2) from
        (Real.sqrt_sq (by norm_num)).symm]
      apply Real.sqrt_le_sqrt
      norm_num
    have hlo : (343.2 : ℝ) ≤ Real.sqrt (1.4 * (287.05 * (20.0 + 273.15))) := by
      rw [show (343.2 : ℝ) = Real.sqrt (343.2 ^ 2) from
        (Real.sqrt_sq (by norm_num)).symm]
      apply Real.sqrt_le_sqrt
      norm_num
    have hc : c0 = 343.0 := rfl
    rw [hco, hc, abs_le]
    constructor
    · linarith [hup]
    · linarith [hlo]

/-- C7: every field `Fluid.__init__` computes matches the specified closed
forms: absolute temperature, ideal-gas density, Sutherland viscosity,
adiabatic sound speed, Prandtl number, and `Cp` and `kappa` as fixed
third-order polynomials in the Celsius temperature input. -/
theorem C7_fluid_fields (T0 P0 R adia Tref C Eta0 : ℝ) :
    (mkFluid T0 P0 R adia Tref C Eta0).TK = T0 + 273.15 ∧
    (mkFluid T0 P0 R adia Tref C Eta0).rho = P0 / (R * (T0 + 273.15)) ∧
    (mkFluid T0 P0 R adia Tref C Eta0).Eta =
      Eta0 * ((Tref + C) / ((T0 + 273.15) + C)) * ((T0 + 273.15) / Tref) ^ (1.5 : ℝ) ∧
    (mkFluid T0 P0 R adia Tref C Eta0).co = Real.sqrt (adia * R * (T0 + 273.15)) ∧
    (mkFluid T0 P0 R adia Tref C Eta0).Pr =
      (mkFluid T0 P0 R adia Tref C Eta0).Cp * (mkFluid T0 P0 R adia Tref C Eta0).Eta /
        (mkFluid T0 P0 R adia Tref C Eta0).kappa ∧
    ∃ a0 a1 a2 a3 b0 b1 b2 b3 : ℝ, ∀ t : ℝ,
      (mkFluid t P0 R adia Tref C Eta0).Cp = a0 + a1 * t + a2 * t ^ 2 + a3 * t ^ 3 ∧
      (mkFluid t P0 R adia Tref C Eta0).kappa = b0 + b1 * t + b2 * t ^ 2 + b3 * t ^ 3 := by
  refine ⟨rfl, rfl, ?_, ?_, rfl, ?_⟩
  · show Eta0 * ((Tref + C) / ((T0 + 273.15) + C)) * ((T0 + 273.15) / Tref) ^ ((3 : ℝ) / 2) = _
    norm_num
  · show Real.sqrt (adia * (R * (T0 + 273.15))) = _
    rw [mul_assoc]
  · refine ⟨1e3 * 1.0062, 1e3 * 3.6028e-5, -(1e3 * 1.0855e-6), 1e3 * 1.3791e-8,
      1.5207e-11 * 273.15 ^ 3 - 4.8574e-8 * 273.15 ^ 2 + 1.0184e-4 * 273.15 - 3.9333e-4,
      3 * 1.5207e-11 * 273.15 ^ 2 - 2 * 4.8574e-8 * 273.15 + 1.0184e-4,
      3 * 1.5207e-11 * 273.15 - 4.8574e-8, 1.5207e-11, fun t => ⟨?_, ?_⟩⟩
    · show 1e3 * (1.0062 + 3.6028e-5 * t - 1.0855e-6 * t ^ 2 + 1.3791e-8 * t ^ 3) = _
      ring
    · show 1.5207e-11 * (t + 273.15) ^ 3 - 4.8574e-8 * (t + 273.15) ^ 2
        + 1.0184e-4 * (t + 273.15) - 3.9333e-4 = _
      ring

/-- C9: both entry points are pure state transitions on the module globals:
a call leaves the environment unchanged, and re-running a call with the same
inputs after any interleaved call yields the identical output value. -/
theorem C9_pure_calls (e : Env) (f f2 : List ℝ)
    (d sigma d2 phi sigma2 tort vl tl : ℝ) :
    (DBM_call e f d sigma).2 = e ∧
    (JCA_call e f2 d2 phi sigma2 tort vl tl).2 = e ∧
    (DBM_call ((JCA_call e f2 d2 phi sigma2 tort vl tl).2) f d sigma).1 =
      (DBM_call e f d sigma).1 ∧
    (JCA_call ((DBM_call e f d sigma).2) f2 d2 phi sigma2 tort vl tl).1 =
      (JCA_call e f2 d2 phi sigma2 tort vl tl).1 :=
  ⟨rfl, rfl, rfl, rfl⟩

lemma alpha_from_dkz_le_one (e : Env) (d : ℝ) (k z : List ℂ) :
    ∀ x ∈ (alpha_from_dkz e d k z).getD [], x ≤ 1 := by
  unfold alpha_from_dkz
  cases hb : bop (fun a b => a / b) (z.map (fun zi => -Complex.I * zi))
      ((k.map (fun ki => ki * (d : ℂ))).map Complex.tan) with
  | none => simp
  | some zs =>
    intro x hx
    simp only [Option.map_some', Option.getD_some, List.mem_map] at hx
    obtain ⟨r, hr, rfl⟩ := hx
    have h0 : 0 ≤ Complex.abs r ^ 2 := by positivity
    linarith

lemma DBM_le_one (e : Env) (f : List ℝ) (d sigma : ℝ) :
    ∀ x ∈ (DBM e f d sigma).getD [], x ≤ 1 := by
  have hD : DBM e f d sigma = (bop (fun a b => a * b) (e.k0.map (fun (x : ℝ) => (x : ℂ)))
      (f.map (fun fi => miki_kfac_code sigma fi))).bind
      (fun k => alpha_from_dkz e d k (f.map (fun fi => miki_z_code e.z0 sigma fi))) := rfl
  rw [hD]
  cases hb : bop (fun a b => a * b) (e.k0.map (fun (x : ℝ) => (x : ℂ)))
      (f.map (fun fi => miki_kfac_code sigma fi)) with
  | none => simp
  | some k =>
    simpa using alpha_from_dkz_le_one e d k (f.map (fun fi => miki_z_code e.z0 sigma fi))

lemma JCA_le_one (e : Env) (f : List ℝ) (d phi sigma tort vl tl : ℝ) :
    ∀ x ∈ (JCA e f d phi sigma tort vl tl).getD [], x ≤ 1 := by
  have hJ : JCA e f d phi sigma tort vl tl =
      (bop (fun a b => a / b) (f.map (fun fi => (↑(fi * Real.pi * 2) : ℂ)))
        (rho_c_JCA e.freq phi sigma tort vl tl defaultFluid).2).bind
      (fun k => (bop (fun a b => a * b)
          (rho_c_JCA e.freq phi sigma tort vl tl defaultFluid).1
          (rho_c_JCA e.freq phi sigma tort vl tl defaultFluid).2).bind
        (fun z => alpha_from_dkz e d k z)) := rfl
  rw [hJ]
  cases hk : bop (fun a b => a / b) (f.map (fun fi => (↑(fi * Real.pi * 2) : ℂ)))
      (rho_c_JCA e.freq phi sigma tort vl tl defaultFluid).2 with
  | none => simp
  | some k =>
    cases hz : bop (fun a b => a * b)
        (rho_c_JCA e.freq phi sigma tort vl tl defaultFluid).1
        (rho_c_JCA e.freq phi sigma tort vl tl defaultFluid).2 with
    | none => simp
    | some z => simpa using alpha_from_dkz_le_one e d k z

/-- C10: every entry of the rigid-backed absorption conversion, and hence
every entry either model returns, is at most 1 (it is 1 minus a squared
modulus); and negative entries are possible, witnessed by a concrete
non-passive (k, z) pair whose absorption is exactly -8. -/
theorem C10_alpha_le_one :
    (∀ (e : Env) (d : ℝ) (k z : List ℂ)
        (i : Fin ((alpha_from_dkz e d k z).getD []).length),
        ((alpha_from_dkz e d k z).getD []).get i ≤ 1) ∧
    (∀ (e : Env) (f : List ℝ) (d sigma : ℝ)
        (i : Fin ((DBM e f d sigma).getD []).length),
        ((DBM e f d sigma).getD []).get i ≤ 1) ∧
    (∀ (e : Env) (f : List ℝ) (d phi sigma tort vl tl : ℝ)
        (i : Fin ((JCA e f d phi sigma tort vl tl).getD []).length),
        ((JCA e f d phi sigma tort vl tl).getD []).get i ≤ 1) ∧
    alpha_from_dkz initEnv 1 [(↑(Real.pi / 4) : ℂ)] [-Complex.I * ↑(z0 / 2)] =
      some [-8] := by
  refine ⟨fun e d k z i => alpha_from_dkz_le_one e d k z _ (List.get_mem _ _ _),
    fun e f d sigma i => DBM_le_one e f d sigma _ (List.get_mem _ _ _),
    fun e f d phi sigma tort vl tl i =>
      JCA_le_one e f d phi sigma tort vl tl _ (List.get_mem _ _ _), ?_⟩
  unfold alpha_from_dkz
  rw [bop_same _ _ _ (by simp)]
  have htan : Complex.tan ((↑(Real.pi / 4) : ℂ) * ((1 : ℝ) : ℂ)) = 1 := by
    rw [Complex.ofReal_one, mul_one, ← Complex.ofReal_tan, Real.tan_pi_div_four,
      Complex.ofReal_one]
  simp only [List.map_cons, List.map_nil, List.zipWith_cons_cons, List.zipWith_nil_right,
    Option.map_some']
  rw [htan, div_one]
  have hzs : -Complex.I * (-Complex.I * (↑(z0 / 2) : ℂ)) = -(↑(z0 / 2) : ℂ) := by
    ring_nf
    simp [Complex.I_sq]
  rw [hzs]
  have hz0 : z0 = 416.059 := by norm_num [z0, rho0, c0]
  have hR : (-(↑(z0 / 2) : ℂ) - ↑(initEnv.z0)) / (-(↑(z0 / 2) : ℂ) + ↑(initEnv.z0)) =
      ((-3 : ℝ) : ℂ) := by
    have hiz : initEnv.z0 = z0 := rfl
    rw [hiz, hz0]
    norm_num
  rw [hR]
  rw [Complex.abs_ofReal]
  norm_num

lemma initEnv_freq : initEnv.freq = freq := rfl

lemma initEnv_z0 : initEnv.z0 = z0 := rfl

lemma initEnv_k0 : initEnv.k0 = k0 := rfl

lemma DBM_single_length (x d sigma : ℝ) :
    Option.map List.length (DBM initEnv [x] d sigma) = some 995 := by
  have hD : DBM initEnv [x] d sigma = (bop (fun a b => a * b)
      (initEnv.k0.map (fun (t : ℝ) => (t : ℂ)))
      ([x].map (fun fi => miki_kfac_code sigma fi))).bind
      (fun k => alpha_from_dkz initEnv d k
        ([x].map (fun fi => miki_z_code initEnv.z0 sigma fi))) := rfl
  rw [hD]
  have hik : initEnv.k0.length = 995 := by rw [initEnv_k0]; exact k0_length
  have hk0len : (initEnv.k0.map (fun (t : ℝ) => (t : ℂ))).length = 995 := by
    rw [List.length_map]
    exact hik
  rw [bop_right_one _ _ _ (by rw [hk0len]; norm_num) (by simp)]
  rw [Option.some_bind]
  unfold alpha_from_dkz
  rw [bop_left_one _ _ _ (by simp) (by simp [hik])]
  simp [hik]

lemma JCA_single_length (x d phi sigma tort vl tl : ℝ) :
    Option.map List.length (JCA initEnv [x] d phi sigma tort vl tl) = some 995 := by
  have hJ : JCA initEnv [x] d phi sigma tort vl tl =
      (bop (fun a b => a / b) ([x].map (fun fi => (↑(fi * Real.pi * 2) : ℂ)))
        (rho_c_JCA initEnv.freq phi sigma tort vl tl defaultFluid).2).bind
      (fun k => (bop (fun a b => a * b)
          (rho_c_JCA initEnv.freq phi sigma tort vl tl defaultFluid).1
          (rho_c_JCA initEnv.freq phi sigma tort vl tl defaultFluid).2).bind
        (fun z => alpha_from_dkz initEnv d k z)) := rfl
  rw [hJ]
  have hc : (rho_c_JCA initEnv.freq phi sigma tort vl tl defaultFluid).2.length = 995 := by
    show (List.map _ initEnv.freq).length = 995
    rw [List.length_map]
    exact freq_length
  have hr : (rho_c_JCA initEnv.freq phi sigma tort vl tl defaultFluid).1.length = 995 := by
    show (List.map _ initEnv.freq).length = 995
    rw [List.length_map]
    exact freq_length
  rw [bop_left_one _ _ _ (by simp) (by rw [hc]; norm_num)]
  rw [Option.some_bind]
  rw [bop_same _ _ _ (by rw [hc, hr])]
  rw [Option.some_bind]
  unfold alpha_from_dkz
  rw [bop_same _ _ _ (by simp [hc, hr])]
  simp [hc, hr]

/-- C1 counterexample: on a one-entry frequency array the empirical entry
point returns a 995-entry absorption array (the default-grid length), not a
one-entry array: output length does not equal input length. -/
theorem C1_length_counterexample :
    Option.map List.length (DBM initEnv [100] 0.01 15000) = some 995 ∧
    (995 : ℕ) ≠ 1 :=
  ⟨DBM_single_length 100 0.01 15000, by norm_num⟩

/-- C2: concrete evaluation at the failing input: called on the one-entry
frequency array [100], the effective-medium entry point evaluates
`rho_c_JCA` on the 995-entry default grid and returns a 995-entry array,
so `rho_eff` and `c_eff` are not computed from the input `f`. -/
theorem C2_default_grid_eval :
    Option.map List.length (JCA initEnv [100] 0.01 0.99 15000 1.01 87.4e-6 196e-6) =
      some 995 ∧ (995 : ℕ) ≠ 1 :=
  ⟨JCA_single_length 100 0.01 0.99 15000 1.01 87.4e-6 196e-6, by norm_num⟩

/-- C5: for positive thickness and per-frequency (k, z) pairs of equal
length, the conversion returns exactly the specification formula
`alpha = 1 - |R|^2` with `R = (zs - z0)/(zs + z0)` and
`zs = -j z / tan(k d)`, one real value per frequency. -/
theorem C5_absorption_formula (e : Env) (d : ℝ) (k z : List ℂ)
    (hd : 0 < d) (hlen : k.length = z.length) :
    alpha_from_dkz e d k z = some (specRigidBackedAbsorption e.z0 d k z) := by
  unfold alpha_from_dkz
  rw [bop_same _ _ _ (by simp [hlen])]
  rw [Option.map_some']
  congr 1
  apply List.ext_getElem
  · simp [specRigidBackedAbsorption, hlen]
  · intro i h1 h2
    simp only [List.getElem_map, List.getElem_zipWith, specRigidBackedAbsorption]

/-- Witness for C5 at a concrete one-entry input. -/
theorem C5_absorption_formula_witness :
    (0 : ℝ) < 1 ∧ [Complex.I].length = [(1 : ℂ)].length ∧
    alpha_from_dkz initEnv 1 [Complex.I] [1] =
      some (specRigidBackedAbsorption initEnv.z0 1 [Complex.I] [1]) :=
  ⟨by norm_num, rfl, C5_absorption_formula initEnv 1 [Complex.I] [1] (by norm_num) rfl⟩

/-- C3 counterexample: the claim says k is derived per entry from the input
frequency, so on the one-entry input [100] it would produce a one-entry
output; the code instead multiplies the fixed 995-entry default-grid `k0`
array and returns 995 entries. -/
theorem C3_wavenumber_counterexample :
    DBM initEnv [100] 0.01 15000 ≠ some (DBM_claimed [100] 0.01 15000) ∧
    (DBM_claimed [100] 0.01 15000).length = 1 := by
  have hlen := DBM_single_length 100 0.01 15000
  have hcl : (DBM_claimed [100] 0.01 15000).length = 1 := by
    simp [DBM_claimed, specRigidBackedAbsorption]
  refine ⟨?_, hcl⟩
  intro h
  rw [h, Option.map_some', hcl] at hlen
  exact absurd (Option.some.inj hlen) (by norm_num)

lemma DBM_eq_aligned (f : List ℝ) (hf : f.length = 995) (d sigma : ℝ) :
    DBM initEnv f d sigma = some (DBM_aligned f d sigma) := by
  have hD : DBM initEnv f d sigma = (bop (fun a b => a * b)
      (initEnv.k0.map (fun (x : ℝ) => (x : ℂ)))
      (f.map (fun fi => miki_kfac_code sigma fi))).bind
      (fun k => alpha_from_dkz initEnv d k
        (f.map (fun fi => miki_z_code initEnv.z0 sigma fi))) := rfl
  rw [hD]
  have hik : initEnv.k0.length = 995 := by rw [initEnv_k0]; exact k0_length
  rw [bop_same _ _ _ (by simp [hik, hf])]
  rw [Option.some_bind]
  unfold alpha_from_dkz
  rw [bop_same _ _ _ (by simp [hik, hf])]
  rw [Option.map_some']
  congr 1
  apply List.ext_getElem
  · simp [DBM_aligned, hik, hf, freq_length]
  · intro i h1 h2
    simp only [List.getElem_map, List.getElem_zipWith, DBM_aligned, DBM_entry, alpha_entry,
      initEnv_z0, initEnv_k0, k0, omega, List.getElem_map]

lemma JCA_eq_aligned (f : List ℝ) (hf : f.length = 995) (d phi sigma tort vl tl : ℝ) :
    JCA initEnv f d phi sigma tort vl tl =
      some (JCA_aligned f d phi sigma tort vl tl) := by
  have hJ : JCA initEnv f d phi sigma tort vl tl =
      (bop (fun a b => a / b) (f.map (fun fi => (↑(fi * Real.pi * 2) : ℂ)))
        (rho_c_JCA initEnv.freq phi sigma tort vl tl defaultFluid).2).bind
      (fun k => (bop (fun a b => a * b)
          (rho_c_JCA initEnv.freq phi sigma tort vl tl defaultFluid).1
          (rho_c_JCA initEnv.freq phi sigma tort vl tl defaultFluid).2).bind
        (fun z => alpha_from_dkz initEnv d k z)) := rfl
  rw [hJ]
  have hfr : initEnv.freq.length = 995 := by rw [initEnv_freq]; exact freq_length
  rw [bop_same _ _ _ (by simp [rho_c_JCA, hf, hfr])]
  rw [Option.some_bind]
  rw [bop_same _ _ _ (by simp [rho_c_JCA, hfr])]
  rw [Option.some_bind]
  unfold alpha_from_dkz
  rw [bop_same _ _ _ (by simp [rho_c_JCA, hf, hfr])]
  rw [Option.map_some']
  congr 1
  apply List.ext_getElem
  · simp [JCA_aligned, rho_c_JCA, hf, hfr, freq_length]
  · intro i h1 h2
    simp only [List.getElem_map, List.getElem_zipWith, JCA_aligned, JCA_entry, alpha_entry,
      rho_c_JCA, initEnv_z0, initEnv_freq]

/-- C1 (amended): on input arrays of the default-grid length 995 both entry
points succeed, the output length equals the input length, and the output at
index i is a function of the input frequency at index i (and of the fixed
default-grid constants at the same index): no reordering and no dropped
entries.  For other input lengths the entry points broadcast or fail
(see the counterexample). -/
theorem C1_alignment_amended (f : List ℝ) (hf : f.length = 995)
    (d sigma phi tort vl tl : ℝ) :
    DBM initEnv f d sigma = some (DBM_aligned f d sigma) ∧
    (DBM_aligned f d sigma).length = f.length ∧
    JCA initEnv f d phi sigma tort vl tl =
      some (JCA_aligned f d phi sigma tort vl tl) ∧
    (JCA_aligned f d phi sigma tort vl tl).length = f.length := by
  refine ⟨DBM_eq_aligned f hf d sigma, ?_, JCA_eq_aligned f hf d phi sigma tort vl tl, ?_⟩
  · simp [DBM_aligned, freq_length, hf]
  · simp [JCA_aligned, freq_length, hf]

/-- Witness for C1 (amended) at the default grid itself. -/
theorem C1_alignment_amended_witness :
    freq.length = 995 ∧
    (DBM initEnv freq 0.01 15000 = some (DBM_aligned freq 0.01 15000) ∧
      (DBM_aligned freq 0.01 15000).length = freq.length ∧
      JCA initEnv freq 0.01 0.99 15000 1.01 87.4e-6 196e-6 =
        some (JCA_aligned freq 0.01 0.99 15000 1.01 87.4e-6 196e-6) ∧
      (JCA_aligned freq 0.01 0.99 15000 1.01 87.4e-6 196e-6).length = freq.length) :=
  ⟨freq_length, C1_alignment_amended freq freq_length 0.01 15000 0.99 1.01 87.4e-6 196e-6⟩

/-- C3 (amended): on grid-length inputs the empirical model computes the
specification Miki impedance per input entry, but the wavenumber at index i
uses the free-field wavenumber of the default-grid frequency at index i
(from the module array `k0`), not of the input frequency, times the Miki
bracket of the input frequency. -/
theorem C3_miki_amended (f : List ℝ) (d sigma : ℝ) (hs : 0 < sigma)
    (hf : f.length = 995) :
    DBM initEnv f d sigma = some (DBM_grid_spec f d sigma) := by
  rw [DBM_eq_aligned f hf d sigma]
  congr 1
  apply List.ext_getElem
  · simp [DBM_aligned, DBM_grid_spec, specRigidBackedAbsorption, hf, freq_length]
  · intro i h1 h2
    simp only [DBM_aligned, DBM_grid_spec, specRigidBackedAbsorption, List.getElem_zipWith,
      List.getElem_map, DBM_entry, alpha_entry, miki_z_code, miki_kfac_code, specMikiZ,
      specMikiKfactor, sci_1e3]

/-- Witness for C3 (amended) at the default grid itself. -/
theorem C3_miki_amended_witness :
    (0 : ℝ) < 15000 ∧ freq.length = 995 ∧
    DBM initEnv freq 0.01 15000 = some (DBM_grid_spec freq 0.01 15000) :=
  ⟨by norm_num, freq_length, C3_miki_amended freq 0.01 15000 (by norm_num) freq_length⟩

/-- C6: at every positive frequency the effective-medium computation equals
the specification formulas for the effective density and sound speed (with
angular frequency w = 2 pi f), and both square-root corrections G and H are
taken on the principal branch, whose real part is non-negative. -/
theorem C6_jca_formula (fl : Fluid) (phi sigma alpha v_length t_length fq : ℝ)
    (hPr : fl.Pr = fl.Cp * fl.Eta / fl.kappa) (hf : 0 < fq) :
    rho_c_JCA_at fl phi sigma alpha v_length t_length fq =
      (specRhoEff fl phi sigma alpha v_length (2 * Real.pi * fq),
       specCEff fl phi sigma alpha v_length t_length (2 * Real.pi * fq)) ∧
    0 ≤ (specG fl phi sigma alpha v_length (2 * Real.pi * fq)).re ∧
    0 ≤ (specH fl t_length (2 * Real.pi * fq)).re := by
  refine ⟨?_, ?_, ?_⟩
  · simp only [rho_c_JCA_at, specRhoEff, specG, specCEff, specK, specH, hPr]
    rw [Prod.mk.injEq]
    constructor
    · simp only [real_rpow_two]
      push_cast
      ring_nf
    · simp only [real_rpow_two]
      push_cast
      ring_nf
  · unfold specG
    exact csqrt_re_nonneg _
  · unfold specH
    exact csqrt_re_nonneg _

/-- Witness for C6 at the default fluid and a concrete parameter set. -/
theorem C6_jca_formula_witness :
    defaultFluid.Pr = defaultFluid.Cp * defaultFluid.Eta / defaultFluid.kappa ∧
    (0 : ℝ) < 100 ∧
    (rho_c_JCA_at defaultFluid 0.99 15000 1.01 87.4e-6 196e-6 100 =
      (specRhoEff defaultFluid 0.99 15000 1.01 87.4e-6 (2 * Real.pi * 100),
       specCEff defaultFluid 0.99 15000 1.01 87.4e-6 196e-6 (2 * Real.pi * 100)) ∧
     0 ≤ (specG defaultFluid 0.99 15000 1.01 87.4e-6 (2 * Real.pi * 100)).re ∧
     0 ≤ (specH defaultFluid 196e-6 (2 * Real.pi * 100)).re) :=
  ⟨rfl, by norm_num,
    C6_jca_formula defaultFluid 0.99 15000 1.01 87.4e-6 196e-6 100 rfl (by norm_num)⟩

end Porous
